import Mathlib

/-!
Shallow embedding of the udev-device-manager agent (kubelet-deviceplugin-rs):
the config data model, the udev device model, the three registries, the
distributor, the per-class device-plugin server logic and the reconciliation
event loop, together with theorems checking the natural-language specification
against these definitions.
-/

namespace UdevMgr

/-- InternedString is an opaque handle whose equality coincides with byte
equality of the underlying UTF-8 string, so it is embedded as String. -/
abbrev InternedString := String

/-- AttributeValue from udev/device.rs: None (empty value), Invalid (non
UTF-8 bytes) or Value (a valid, non-empty string). -/
inductive AttributeValue where
  | none
  | invalid
  | value (v : InternedString)
deriving DecidableEq, Repr

/-- The as_option accessor: only Value counts as an existing value. -/
def AttributeValue.asOption : AttributeValue → Option InternedString
  | .value v => some v
  | _ => Option.none

/-- UdevDevice from udev/device.rs: id, subsystem, syspath, devnode and the
attribute map (a BTreeMap embedded as an association list with unique keys). -/
structure UdevDevice where
  id : InternedString
  subsystem : InternedString
  syspath : InternedString
  devnode : InternedString
  attributes : List (InternedString × AttributeValue)
deriving DecidableEq, Repr

/-- Attribute lookup on a UdevDevice (BTreeMap::get). -/
def UdevDevice.attribute (d : UdevDevice) (name : String) : Option AttributeValue :=
  (d.attributes.lookup name)

/-- The standard base64 alphabet used by base64::encode. -/
def base64Alphabet : List Char :=
  "ABCDEFGHIJKLMNOPQRSTUVWXYZabcdefghijklmnopqrstuvwxyz0123456789+/".toList

/-- Character of the base64 alphabet at a 6-bit index. -/
def b64Char (n : Nat) : Char := base64Alphabet.getD n 'A'

/-- base64::encode on a list of bytes (standard alphabet, with padding). -/
def base64Encode : List Nat → String
  | [] => ""
  | [b1] =>
    String.mk [b64Char (b1 / 4), b64Char (b1 % 4 * 16), '=', '=']
  | [b1, b2] =>
    String.mk [b64Char (b1 / 4), b64Char (b1 % 4 * 16 + b2 / 16), b64Char (b2 % 16 * 4), '=']
  | b1 :: b2 :: b3 :: rest =>
    String.mk [b64Char (b1 / 4), b64Char (b1 % 4 * 16 + b2 / 16),
      b64Char (b2 % 16 * 4 + b3 / 64), b64Char (b3 % 64)] ++ base64Encode rest

/-- u64::to_le_bytes: the 8 little-endian bytes of a 64-bit value. -/
def u64ToLEBytes (n : Nat) : List Nat :=
  [n % 256, n / 2 ^ 8 % 256, n / 2 ^ 16 % 256, n / 2 ^ 24 % 256,
   n / 2 ^ 32 % 256, n / 2 ^ 40 % 256, n / 2 ^ 48 % 256, n / 2 ^ 56 % 256]

/-- The device id computed in UdevDevice::try_from: base64 of the 8
little-endian bytes of the 64-bit hash of the syspath. The hash function
(seahash) is kept as a parameter; only its 64-bit output enters the id. -/
def deviceIdString (hash : String → Nat) (syspath : String) : String :=
  base64Encode (u64ToLEBytes (hash syspath))

/-- A device is well formed when its stored id is the one try_from computes
from its syspath. -/
def WellFormedDevice (hash : String → Nat) (d : UdevDevice) : Prop :=
  d.id = deviceIdString hash d.syspath

instance (hash : String → Nat) (d : UdevDevice) : Decidable (WellFormedDevice hash d) := by
  unfold WellFormedDevice; infer_instance

/-- Mismatch reason, structured as key / expected values / actual value. -/
structure Mismatch where
  key : InternedString
  expected : List InternedString
  actual : Option InternedString
deriving DecidableEq, Repr

/-- Modelled from the spec: MatchResult (the selector engine result type) is
not under src in this snapshot; per the spec it is either Matches or a
Mismatch with a list of structured reasons. -/
inductive MatchResult where
  | matches
  | mismatch (reasons : List Mismatch)
deriving DecidableEq, Repr

/-- Modelled from the spec: combining two match results yields Matches iff
both are Matches, otherwise the concatenated mismatch list (the += used
throughout match_with implementations). -/
def MatchResult.add : MatchResult → MatchResult → MatchResult
  | .matches, r => r
  | .mismatch l, .matches => .mismatch l
  | .mismatch l, .mismatch r => .mismatch (l ++ r)

/-- A single expected-value mismatch (MatchResult::expected_value). -/
def MatchResult.expectedValue (key : InternedString) (expected : InternedString)
    (actual : Option InternedString) : MatchResult :=
  .mismatch [{ key, expected := [expected], actual }]

/-- is_match: true exactly on Matches. -/
def MatchResult.isMatch : MatchResult → Bool
  | .matches => true
  | .mismatch _ => false

/-- SelectorValueRequirement from config/selector.rs: In, NotIn, Exists or
DoesNotExist. -/
inductive SelectorValueRequirement where
  | isIn (vs : List InternedString)
  | notIn (vs : List InternedString)
  | existsOp
  | doesNotExist
deriving DecidableEq, Repr

/-- SelectorRequirement from config/selector.rs: a key together with its
value requirement. -/
structure SelectorRequirement where
  key : InternedString
  valueRequirement : SelectorValueRequirement
deriving DecidableEq, Repr

/-- Selector from config/selector.rs: an optional flat key-to-value map and
an optional list of requirements. -/
structure Selector where
  flat : Option (List (InternedString × InternedString))
  expressions : Option (List SelectorRequirement)
deriving DecidableEq, Repr

/-- Modelled from the spec: the evaluation of one requirement against a
lookup (Selector::match_with is not under src in this snapshot). In requires
a present value in the set; NotIn requires absence or a present value outside
the set; Exists requires presence; DoesNotExist requires absence. -/
def SelectorRequirement.matchWith (lookup : String → Option InternedString)
    (r : SelectorRequirement) : MatchResult :=
  match r.valueRequirement, lookup r.key with
  | .isIn vs, some v => if vs.contains v then .matches else .mismatch [⟨r.key, vs, some v⟩]
  | .isIn vs, Option.none => .mismatch [⟨r.key, vs, Option.none⟩]
  | .notIn vs, some v => if vs.contains v then .mismatch [⟨r.key, vs, some v⟩] else .matches
  | .notIn _, Option.none => .matches
  | .existsOp, some _ => .matches
  | .existsOp, Option.none => .mismatch [⟨r.key, [], Option.none⟩]
  | .doesNotExist, some v => .mismatch [⟨r.key, [], some v⟩]
  | .doesNotExist, Option.none => .matches

/-- Modelled from the spec: Selector::match_with evaluates the flat entries
(each shorthand for In with a singleton set) and then the requirements in
declared order, collecting all failures without short-circuiting. -/
def Selector.matchWith (s : Selector) (lookup : String → Option InternedString) : MatchResult :=
  let flatResult := (s.flat.getD []).foldl
    (fun acc p => acc.add (SelectorRequirement.matchWith lookup ⟨p.1, .isIn [p.2]⟩))
    MatchResult.matches
  (s.expressions.getD []).foldl
    (fun acc r => acc.add (r.matchWith lookup)) flatResult

/-- DeviceAccess from config/device_type/access.rs: Exclusive or AtMost(n)
with n a NonZeroU8. -/
inductive DeviceAccess where
  | exclusive
  | atMost (n : Nat)
deriving DecidableEq, Repr

/-- The usize conversion of a DeviceAccess (impl From<DeviceAccess> for usize). -/
def DeviceAccess.toNat : DeviceAccess → Nat
  | .exclusive => 1
  | .atMost n => n

/-- DeviceTypeLabels: a BTreeMap from label name to value, embedded as an
association list. -/
structure DeviceTypeLabels where
  values : List (InternedString × InternedString)
deriving DecidableEq, Repr

/-- Label lookup (DeviceTypeLabels::get). -/
def DeviceTypeLabels.get (l : DeviceTypeLabels) (name : String) : Option InternedString :=
  l.values.lookup name

/-- DeviceType from config/device_type.rs. -/
structure DeviceType where
  name : InternedString
  subsystem : InternedString
  access : DeviceAccess
  labels : DeviceTypeLabels
  selector : Selector
deriving DecidableEq, Repr

/-- DeviceType::match_with over a udev device: a subsystem equality check
followed by the selector over the device attributes (only Value attributes
count, via as_option). -/
def DeviceType.matchWith (t : DeviceType) (device : UdevDevice) : MatchResult :=
  let base :=
    if t.subsystem ≠ device.subsystem then
      MatchResult.matches.add
        (MatchResult.expectedValue "subsystem" t.subsystem (some device.subsystem))
    else MatchResult.matches
  base.add (t.selector.matchWith (fun name => (device.attribute name).bind AttributeValue.asOption))

/-- DeviceClass from config/device_class.rs: name, subsystem, target and a
selector over device type labels. -/
structure DeviceClass where
  subsystem : InternedString
  name : InternedString
  target : InternedString
  selector : Selector
deriving DecidableEq, Repr

/-- DeviceClass::match_with over a device type: a subsystem equality check
followed by the selector over the device type labels. -/
def DeviceClass.matchWith (c : DeviceClass) (deviceType : DeviceType) : MatchResult :=
  let base :=
    if c.subsystem ≠ deviceType.subsystem then
      MatchResult.matches.add
        (MatchResult.expectedValue "subsystem" c.subsystem (some deviceType.subsystem))
    else MatchResult.matches
  base.add (c.selector.matchWith (fun name => deviceType.labels.get name))

/-- Raw bytes as seen through OsStr::to_str: a valid UTF-8 string or not. -/
inductive RawStr where
  | utf8 (s : String)
  | nonUtf8
deriving DecidableEq, Repr

/-- A node of the kernel device hierarchy as the attribute walk sees it: the
attribute entries of this level (name, optional resolved value) and the
optional parent. -/
inductive RawDevice where
  | node (attrs : List (RawStr × Option RawStr)) (parent : Option RawDevice)
deriving Repr

/-- Attribute entries of one hierarchy level. -/
def RawDevice.attrs : RawDevice → List (RawStr × Option RawStr)
  | .node a _ => a

/-- UdevHierarchy (udev/device.rs lines 29-43): the iterator yielding the
device itself and then each parent up to the root. -/
def RawDevice.hierarchy : RawDevice → List RawDevice
  | .node attrs Option.none => [.node attrs Option.none]
  | .node attrs (some p) => .node attrs (some p) :: p.hierarchy

/-- PathKind from udev/device.rs. -/
inductive PathKind where
  | sysPath
  | devNode
deriving DecidableEq, Repr

/-- UdevDeviceError from udev/device.rs. -/
inductive UdevDeviceError where
  | noSubsystem
  | invalidSubsystem
  | pathNotValidString (pathKind : PathKind)
  | noDevNode
  | invalidAttributeName
deriving DecidableEq, Repr

/-- Classification of a resolved attribute value, as in the match inside
UdevDevice::try_from: non UTF-8 becomes Invalid, empty becomes None and a
valid non-empty string becomes Value. -/
def classifyAttrValue : RawStr → AttributeValue
  | .nonUtf8 => .invalid
  | .utf8 v => if v = "" then .none else .value v

/-- BTreeMap entry(name).or_insert(value): insert only when the key is not
already bound. -/
def orInsert (m : List (InternedString × AttributeValue)) (k : InternedString)
    (v : AttributeValue) : List (InternedString × AttributeValue) :=
  if (m.lookup k).isSome then m else m ++ [(k, v)]

/-- The attribute collection loop of UdevDevice::try_from over the flattened
hierarchy enumeration: a non UTF-8 attribute name fails the whole device;
entries whose value did not resolve are skipped; resolved values are
classified and bound only if the name is not already bound. -/
def collectAttributes (acc : List (InternedString × AttributeValue)) :
    List (RawStr × Option RawStr) →
    Except UdevDeviceError (List (InternedString × AttributeValue))
  | [] => .ok acc
  | (RawStr.nonUtf8, _) :: _ => .error .invalidAttributeName
  | (RawStr.utf8 n, entry) :: rest =>
    match entry with
    | Option.none => collectAttributes acc rest
    | some v => collectAttributes (orInsert acc n (classifyAttrValue v)) rest

/-- The opaque tokio_udev::Device as try_from consumes it: subsystem, syspath
and devnode as raw strings, plus the hierarchy chain for the attribute walk. -/
structure TokioUdevDevice where
  subsystem : Option RawStr
  syspath : RawStr
  devnode : Option RawStr
  chain : RawDevice
deriving Repr

/-- UdevDevice::try_from (udev/device.rs lines 194-246): validate subsystem,
syspath and devnode, walk the hierarchy collecting attributes, and compute
the id as base64 of the little-endian bytes of the 64-bit hash (seahash,
kept as a parameter) of the syspath. -/
def udevDeviceTryFrom (hash : String → Nat) (value : TokioUdevDevice) :
    Except UdevDeviceError UdevDevice := do
  let subsystem ← match value.subsystem with
    | Option.none => .error .noSubsystem
    | some RawStr.nonUtf8 => .error .invalidSubsystem
    | some (RawStr.utf8 s) => .ok s
  let syspath ← match value.syspath with
    | RawStr.nonUtf8 => .error (.pathNotValidString .sysPath)
    | RawStr.utf8 s => .ok s
  let devnode ← match value.devnode with
    | Option.none => .error .noDevNode
    | some RawStr.nonUtf8 => .error (.pathNotValidString .devNode)
    | some (RawStr.utf8 s) => .ok s
  let attributes ← collectAttributes [] (value.chain.hierarchy.flatMap RawDevice.attrs)
  let id := deviceIdString hash syspath
  .ok { id, subsystem, syspath, devnode, attributes }

/-- UdevEvent from the udev event stream: a typed kernel event carrying the
affected device. -/
inductive UdevEvent where
  | add (d : UdevDevice)
  | change (d : UdevDevice)
  | remove (d : UdevDevice)
  | bind (d : UdevDevice)
  | unbind (d : UdevDevice)
  | unknown (d : UdevDevice)
deriving DecidableEq, Repr

/-- BTreeMap::insert keyed by syspath: replace the existing binding or append. -/
def assocInsert {α : Type} (m : List (InternedString × α)) (k : InternedString) (v : α) :
    List (InternedString × α) :=
  match m with
  | [] => [(k, v)]
  | (k0, v0) :: rest => if k0 = k then (k, v) :: rest else (k0, v0) :: assocInsert rest k v

/-- BTreeMap::remove keyed by syspath. -/
def assocErase {α : Type} (m : List (InternedString × α)) (k : InternedString) :
    List (InternedString × α) :=
  m.filter (fun p => p.1 ≠ k)

/-- DeviceRegistry from app/device_registry.rs: the table of live kernel
devices keyed by syspath. -/
structure DeviceRegistry where
  devices : List (InternedString × UdevDevice)
deriving DecidableEq, Repr

/-- DeviceRegistry::update: Add and Change insert or replace by syspath,
Remove deletes by syspath, Bind, Unbind and Unknown only log. -/
def DeviceRegistry.update (r : DeviceRegistry) : UdevEvent → DeviceRegistry
  | .add device => { devices := assocInsert r.devices device.syspath device }
  | .change device => { devices := assocInsert r.devices device.syspath device }
  | .remove device => { devices := assocErase r.devices device.syspath }
  | .bind _ => r
  | .unbind _ => r
  | .unknown _ => r

/-- DeviceRegistry::find: snapshot iteration over values satisfying the
predicate. -/
def DeviceRegistry.find (r : DeviceRegistry) (f : UdevDevice → Bool) : List UdevDevice :=
  (r.devices.map Prod.snd).filter f

/-- DeviceHandle from app/device_type.rs: one slot of a kernel device, with
id "{device.id}:{index}". -/
structure DeviceHandle where
  device : UdevDevice
  id : InternedString
deriving DecidableEq, Repr

/-- DeviceHandle::new. -/
def DeviceHandle.new (device : UdevDevice) (index : Nat) : DeviceHandle :=
  { device, id := device.id ++ ":" ++ toString index }

/-- PartialEq for DeviceHandle: two handles are the same iff their ids are. -/
def DeviceHandle.sameId (a b : DeviceHandle) : Bool :=
  a.id == b.id

/-- Vec<DeviceHandle> equality under the id-based PartialEq: same length and
pairwise id equality. -/
def handleListEq : List DeviceHandle → List DeviceHandle → Bool
  | [], [] => true
  | a :: as_, b :: bs => a.sameId b && handleListEq as_ bs
  | _, _ => false

/-- DeviceTypeHandle state from app/device_type.rs: the config and the
current slot list held in the ArcSwap. -/
structure DeviceTypeState where
  config : DeviceType
  devices : List DeviceHandle
deriving DecidableEq, Repr

/-- DeviceTypeHandle::reconcile (app/device_type.rs lines 91-115): find the
devices matching the config, then emit access-many handles per device with
slot indices 0..access. -/
def reconcileDevices (config : DeviceType) (registry : DeviceRegistry) : List DeviceHandle :=
  let devices := registry.find (fun d => (config.matchWith d).isMatch)
  devices.flatMap (fun device =>
    (List.range config.access.toNat).map (fun index => DeviceHandle.new device index))

/-- Reachable slot lists of one device type: the ArcSwap starts empty and is
only ever replaced by a reconcile pass over a registry whose devices were
produced by try_from (their id is the hash-derived id of their syspath). -/
inductive DeviceTypeReachable (hash : String → Nat) (config : DeviceType) :
    List DeviceHandle → Prop where
  | init : DeviceTypeReachable hash config []
  | reconcile (registry : DeviceRegistry)
      (hw : ∀ p ∈ registry.devices, WellFormedDevice hash p.2) :
      DeviceTypeReachable hash config (reconcileDevices config registry)

/-- Distributor from app/device_type.rs: the consumable sequence of device
type states built from the registry values. -/
structure Distributor where
  types : List DeviceTypeState
deriving DecidableEq, Repr

/-- Distributor::get_device_types (app/device_type.rs lines 171-177): the
sequence is partitioned by the predicate into hits and misses, the view is
set to the hits, and the misses are returned. -/
def Distributor.getDeviceTypes (d : Distributor) (f : DeviceType → Bool) :
    Distributor × List DeviceTypeState :=
  let parts := d.types.partition (fun t => f t.config)
  ({ types := parts.1 }, parts.2)

/-- Distributor::remaining. -/
def Distributor.remaining (d : Distributor) : List DeviceTypeState :=
  d.types

/-- DevicesState from app/device_class/device_plugin_server.rs: the snapshot
of handles and their source device types. -/
structure DevicesState where
  devices : List DeviceHandle
  deviceTypes : List DeviceTypeState
deriving DecidableEq, Repr

/-- DevicePlugin::reconcile (device_plugin_server.rs lines 57-75): take the
device types the class selector accepts from the distributor, flatten their
handles, and replace the snapshot and fire the notifier once exactly when
the new handle list differs from the old one under id equality. Returns the
stored snapshot, the consumed distributor and whether notify was called. -/
def pluginReconcile (config : DeviceClass) (old : DevicesState) (dist : Distributor) :
    DevicesState × Distributor × Bool :=
  let taken := dist.getDeviceTypes (fun ty => (config.matchWith ty).isMatch)
  let deviceTypes := taken.2
  let devices := deviceTypes.flatMap (fun ty => ty.devices)
  let newState : DevicesState := { devices, deviceTypes }
  if handleListEq old.devices newState.devices then (old, taken.1, false)
  else (newState, taken.1, true)

/-- A class server handle: its socket/display name and the result its abort
returns once awaited. -/
instance {ε α : Type} [DecidableEq ε] [DecidableEq α] : DecidableEq (Except ε α) := fun x y =>
  match x, y with
  | .ok a, .ok b =>
    if h : a = b then isTrue (by rw [h]) else isFalse (by intro hh; cases hh; exact h rfl)
  | .error a, .error b =>
    if h : a = b then isTrue (by rw [h]) else isFalse (by intro hh; cases hh; exact h rfl)
  | .ok _, .error _ => isFalse (by intro hh; cases hh)
  | .error _, .ok _ => isFalse (by intro hh; cases hh)

structure ServerHandle where
  name : String
  abortResult : Except String Unit
deriving DecidableEq

/-- Modelled from the spec: AggregateErrorExt::collect_errors is not under
src in this snapshot; per the spec, aggregate errors are collected and
surfaced as a composite holding every error, not only the first. -/
def collectErrors (results : List (Except String Unit)) : Except (List String) Unit :=
  let errs := results.filterMap (fun r => match r with
    | .error e => some e
    | .ok _ => Option.none)
  if errs = [] then .ok () else .error errs

/-- DeviceClassRegistry::stop (app/device_class.rs lines 54-59): abort every
server in parallel (join_all over all of them), then collect the errors.
Returns the names of the servers that were aborted and the aggregate result. -/
def deviceClassRegistryStop (servers : List ServerHandle) :
    List String × Except (List String) Unit :=
  (servers.map (fun s => s.name), collectErrors (servers.map (fun s => s.abortResult)))

/-- FormatError from config/parse.rs: the per-format parse failures. -/
inductive FormatError where
  | jsonError
  | yamlError
  | tomlError
deriving DecidableEq, Repr

/-- ConfigError from config/parse.rs. -/
inductive ConfigError where
  | invalidExtension (ext : String)
  | missingExtension
  | parseError (e : FormatError)
  | ioError
deriving DecidableEq, Repr

/-- Config from config.rs: the device types (serialized field "devices") and
the device classes. -/
structure Config where
  deviceTypes : List DeviceType
  deviceClasses : List DeviceClass
deriving DecidableEq, Repr

/-- Signal from signals.rs as consumed by App::on_signal. -/
inductive Signal where
  | sigHup
  | sigInt
  | sigQuit
  | sigTerm
deriving DecidableEq, Repr

/-- Action from app.rs: the event loop state machine states. -/
inductive Action where
  | none
  | restart
  | reconcile
  | shutdown
deriving DecidableEq, Repr

/-- DeviceClassHandle state: the class plugin (its config and snapshot) and
its running server. -/
structure DeviceClassState where
  config : DeviceClass
  snapshot : DevicesState
  server : ServerHandle
deriving DecidableEq

/-- App state from app.rs: the stored config and the three registries. -/
structure AppState where
  config : Config
  devices : DeviceRegistry
  deviceTypes : List DeviceTypeState
  deviceClasses : List DeviceClassState
deriving DecidableEq

/-- The fatal errors App::run can surface (color_eyre reports, embedded as a
structured sum). -/
inductive AppError where
  | configWatcherClosed
  | onConfigError (e : ConfigError)
  | signalStreamStopped
  | udevStreamStopped
  | onUdevError
  | restartScanFailed
  | classStartFailed
  | stopFailed (errs : List String)
deriving DecidableEq, Repr

/-- App::on_config (app.rs lines 125-153): a closed stream and a read error
are both surfaced as fatal errors; a new config is stored and triggers
Restart. -/
def appOnConfig (st : AppState) : Option (Except ConfigError Config) →
    Except AppError (AppState × Action)
  | Option.none => .error .configWatcherClosed
  | some (.error e) => .error (.onConfigError e)
  | some (.ok c) => .ok ({ st with config := c }, .restart)

/-- App::on_signal (app.rs lines 155-182): a closed stream is fatal, SIGHUP
restarts, every other delivered signal shuts down. -/
def appOnSignal (st : AppState) : Option Signal → Except AppError (AppState × Action)
  | Option.none => .error .signalStreamStopped
  | some .sigHup => .ok (st, .restart)
  | some .sigInt => .ok (st, .shutdown)
  | some .sigQuit => .ok (st, .shutdown)
  | some .sigTerm => .ok (st, .shutdown)

/-- App::on_udev (app.rs lines 184-212): a closed or failing stream is fatal,
an event is applied to the device registry and triggers Reconcile. -/
def appOnUdev (st : AppState) : Option (Except Unit UdevEvent) →
    Except AppError (AppState × Action)
  | Option.none => .error .udevStreamStopped
  | some (.error _) => .error .onUdevError
  | some (.ok e) => .ok ({ st with devices := st.devices.update e }, .reconcile)

/-- One event arriving at the select of the None arm. -/
inductive LoopEvent where
  | config (c : Option (Except ConfigError Config))
  | signal (s : Option Signal)
  | udev (e : Option (Except Unit UdevEvent))

/-- The outcomes of the external effects a Restart performs: the udev scan
and the construction of the new device class registry (socket binds and
Register calls). -/
structure Env where
  scanResult : Except Unit (List (InternedString × UdevDevice))
  newClassesResult : Except Unit (List DeviceClassState)
  nextEvent : LoopEvent

/-- Observable side effects of one loop iteration: which class servers were
aborted. -/
structure Effects where
  abortedServers : List String
deriving DecidableEq, Repr

/-- Effects of an iteration that aborts nothing. -/
def Effects.none : Effects := { abortedServers := [] }

/-- App::reconcile (app.rs lines 109-123): reconcile every device type
against the registry, build a distributor, let every class take from it in
order, and count the remainder. Returns the new state, the remaining device
types and how many notifications fired. -/
def appReconcile (st : AppState) : AppState × List DeviceTypeState × Nat :=
  let deviceTypes := st.deviceTypes.map
    (fun t => { t with devices := reconcileDevices t.config st.devices })
  let start : List DeviceClassState × Distributor × Nat := ([], { types := deviceTypes }, 0)
  let step := st.deviceClasses.foldl
    (fun acc cls =>
      let r := pluginReconcile cls.config cls.snapshot acc.2.1
      (acc.1 ++ [{ cls with snapshot := r.1 }], r.2.1, acc.2.2 + (if r.2.2 then 1 else 0)))
    start
  ({ st with deviceTypes, deviceClasses := step.1 }, step.2.1.remaining, step.2.2)

/-- App::restart (app.rs lines 87-107): re-scan devices (fatal on failure),
rebuild the device type registry from the config, build the new class
registry (fatal on failure, before the old one is stopped), then stop the
replaced registry, propagating its aggregate error. -/
def appRestart (env : Env) (st : AppState) :
    Except AppError (AppState × Action) × Effects :=
  match env.scanResult with
  | .error _ => (.error .restartScanFailed, Effects.none)
  | .ok scanned =>
    let st1 := { st with
      devices := { devices := scanned },
      deviceTypes := st.config.deviceTypes.map (fun d => { config := d, devices := [] }) }
    match env.newClassesResult with
    | .error _ => (.error .classStartFailed, Effects.none)
    | .ok newClasses =>
      let old := st1.deviceClasses
      let stopped := deviceClassRegistryStop (old.map (fun c => c.server))
      match stopped.2 with
      | .error errs => (.error (.stopFailed errs), { abortedServers := stopped.1 })
      | .ok () =>
        (.ok ({ st1 with deviceClasses := newClasses }, .reconcile),
          { abortedServers := stopped.1 })

/-- Result of one iteration of the App::run loop: continue with a new action
or exit with the run result, along with the observable effects. -/
inductive StepResult where
  | next (st : AppState) (a : Action) (eff : Effects)
  | exit (r : Except AppError Unit) (eff : Effects)

/-- Lift a handler result into a loop step: errors exit the loop through the
question mark operator, successes continue. -/
def liftHandler : Except AppError (AppState × Action) → StepResult
  | .error e => .exit (.error e) Effects.none
  | .ok (st, a) => .next st a Effects.none

/-- One iteration of the App::run loop (app.rs lines 70-85): Shutdown breaks
out of the loop and run returns Ok, Restart and Reconcile run their steps,
and None dispatches the next event from the merged streams. -/
def appRunStep (env : Env) (st : AppState) : Action → StepResult
  | .shutdown => .exit (.ok ()) Effects.none
  | .restart =>
    match appRestart env st with
    | (.error e, eff) => .exit (.error e) eff
    | (.ok (st1, a), eff) => .next st1 a eff
  | .reconcile =>
    let r := appReconcile st
    .next r.1 .none Effects.none
  | .none =>
    match env.nextEvent with
    | .config c => liftHandler (appOnConfig st c)
    | .signal s => liftHandler (appOnSignal st s)
    | .udev e => liftHandler (appOnUdev st e)

namespace Proto

/-- VERSION from proto/src/v1beta1.rs. -/
def VERSION : String := "v1beta1"

/-- DevicePluginOptions from the v1beta1 protocol. -/
structure DevicePluginOptions where
  preStartRequired : Bool
  getPreferredAllocationAvailable : Bool
deriving DecidableEq, Repr

/-- RegisterRequest sent to the kubelet registration socket. -/
structure RegisterRequest where
  version : String
  endpoint : String
  resourceName : String
  options : Option DevicePluginOptions
deriving DecidableEq, Repr

/-- PreStartContainerRequest from v1beta1/types.rs. -/
structure PreStartContainerRequest where
  devicesIds : List String
deriving DecidableEq, Repr

/-- ContainerPreferredAllocationRequest from v1beta1/types.rs. -/
structure ContainerPreferredAllocationRequest where
  availableDeviceIds : List String
  mustIncludeDeviceIds : List String
  allocationSize : Int
deriving DecidableEq, Repr

/-- PreferredAllocationRequest from v1beta1/types.rs. -/
structure PreferredAllocationRequest where
  containerRequests : List ContainerPreferredAllocationRequest
deriving DecidableEq, Repr

/-- ContainerPreferredAllocationResponse from v1beta1/types.rs. -/
structure ContainerPreferredAllocationResponse where
  deviceIds : List String
deriving DecidableEq, Repr

/-- PreferredAllocationResponse from v1beta1/types.rs. -/
structure PreferredAllocationResponse where
  containerResponses : List ContainerPreferredAllocationResponse
deriving DecidableEq, Repr

/-- The tonic status results the service impls produce. -/
inductive Status where
  | unimplemented (msg : String)
deriving DecidableEq, Repr

/-- The compile-time service configuration of a KubeletDevicePluginV1Beta1
value: the two const generic flags. -/
structure ServiceConsts where
  getPreferredAllocationAvailable : Bool
  preStartRequired : Bool
deriving DecidableEq, Repr

/-- KubeletDevicePluginV1Beta1::new (v1beta1.rs lines 125-129): the only
constructor yields the instantiation with both const flags false. -/
def kubeletDevicePluginNew : ServiceConsts :=
  { getPreferredAllocationAvailable := false, preStartRequired := false }

/-- get_device_plugin_options (v1beta1.rs lines 280-290): the static options
built from the const flags. -/
def getDevicePluginOptions (c : ServiceConsts) : DevicePluginOptions :=
  { preStartRequired := c.preStartRequired,
    getPreferredAllocationAvailable := c.getPreferredAllocationAvailable }

/-- prestart_container of the impl for the (false, false) instantiation
(v1beta1.rs lines 164-166): succeed without doing anything. -/
def prestartContainerFF (_ : PreStartContainerRequest) : Except Status Unit :=
  .ok ()

/-- get_preferred_allocation of the impl for the (false, false) instantiation
(v1beta1.rs lines 168-175): always Unimplemented. -/
def getPreferredAllocationFF (_ : PreferredAllocationRequest) :
    Except Status PreferredAllocationResponse :=
  .error (.unimplemented "get_preferred_allocation not supported")

/-- Socket file name for a given retry index (v1beta1.rs lines 369-372). -/
def socketFileName (fileName : String) : Nat → String
  | 0 => fileName ++ ".sock"
  | Nat.succ v => fileName ++ "-" ++ toString (v + 1) ++ ".sock"

/-- DEVICE_PLUGIN_PATH from v1beta1.rs. -/
def DEVICE_PLUGIN_PATH : String := "/var/lib/kubelet/device-plugins/"

/-- The socket path allocation loop of _start (v1beta1.rs lines 366-381):
starting at index 0, take the first path that does not exist. The filesystem
existence check is the predicate parameter; the fuel bounds the unbounded
loop. -/
def allocSocketPath (existsF : String → Bool) (fileName : String) :
    Nat → Nat → Option String
  | 0, _ => Option.none
  | Nat.succ fuel, index =>
    let path := DEVICE_PLUGIN_PATH ++ socketFileName fileName index
    if existsF path then allocSocketPath existsF fileName fuel (index + 1)
    else some path

/-- The Register request _start sends after binding (v1beta1.rs lines
404-415): version v1beta1, the bound socket path as endpoint, the resource
name it was started with, and options from the const flags. -/
def startRegisterRequest (c : ServiceConsts) (resourceName socketPath : String) :
    RegisterRequest :=
  { version := VERSION,
    endpoint := socketPath,
    resourceName,
    options := some
      { preStartRequired := c.preStartRequired,
        getPreferredAllocationAvailable := c.getPreferredAllocationAvailable } }

/-- _start of the server (v1beta1.rs lines 360-418) as far as registration is
concerned: slug the resource name (the slug function of the external slug
crate is a parameter), allocate the socket path, bind there and send the
Register request. Returns the request sent, or nothing when the fuel ran
out. -/
def serverStart (slugF : String → String) (existsF : String → Bool) (fuel : Nat)
    (c : ServiceConsts) (resourceName : String) : Option RegisterRequest :=
  (allocSocketPath existsF (slugF resourceName) fuel 0).map
    (fun socketPath => startRegisterRequest c resourceName socketPath)

end Proto

/-- The resource name DeviceClassHandle::new starts the server with
(app/device_class.rs line 24): the literal format string
udev/{subsystem}/{name} over the class config. -/
def deviceClassResourceName (config : DeviceClass) : String :=
  "udev/" ++ config.subsystem ++ "/" ++ config.name

/-- DeviceClassHandle::new (app/device_class.rs lines 21-29) as far as
registration is concerned: a fresh plugin server (const flags both false)
started with the udev/{subsystem}/{name} resource name. -/
def deviceClassStart (slugF : String → String) (existsF : String → Bool) (fuel : Nat)
    (config : DeviceClass) : Option Proto.RegisterRequest :=
  Proto.serverStart slugF existsF fuel Proto.kubeletDevicePluginNew
    (deviceClassResourceName config)

/-- The serde data model values DeviceAccess serializes into. -/
inductive SerdeValue where
  | str (s : String)
  | u8 (n : Nat)
deriving DecidableEq, Repr

/-- The serde deserialization error (Error::invalid_value). -/
inductive SerdeError where
  | invalidValue
deriving DecidableEq, Repr

/-- Serialize for DeviceAccess (access.rs lines 47-58): Exclusive becomes the
string exclusive, AtMost(v) becomes the integer v. -/
def DeviceAccess.serialize : DeviceAccess → SerdeValue
  | .exclusive => .str "exclusive"
  | .atMost v => .u8 v

/-- DeviceAccessVisitor::visit_u8 (access.rs lines 77-86): 0 is invalid, 1
becomes Exclusive, any other value becomes AtMost. -/
def DeviceAccess.visitU8 (v : Nat) : Except SerdeError DeviceAccess :=
  match v with
  | 0 => .error .invalidValue
  | 1 => .ok .exclusive
  | n => .ok (.atMost n)

/-- DeviceAccessVisitor::visit_str (access.rs lines 88-97): only the string
exclusive is accepted. -/
def DeviceAccess.visitStr (v : String) : Except SerdeError DeviceAccess :=
  if v = "exclusive" then .ok .exclusive else .error .invalidValue

/-- Deserialize for DeviceAccess (deserialize_any dispatching on the data
model value). -/
def DeviceAccess.deserialize : SerdeValue → Except SerdeError DeviceAccess
  | .str s => DeviceAccess.visitStr s
  | .u8 n => DeviceAccess.visitU8 n

/-- Spec-side reading of the attribute walk: the first occurrence of a name
(device first, then ancestors) that carries a resolved value wins, and its
value is classified as Invalid for non UTF-8, None for empty and Value
otherwise. Stated independently of the try_from code for comparison. -/
def specFirstAttribute (s : String) : List (RawStr × Option RawStr) → Option AttributeValue
  | [] => Option.none
  | (RawStr.utf8 n, some raw) :: rest =>
    if n = s then
      some (match raw with
        | RawStr.nonUtf8 => AttributeValue.invalid
        | RawStr.utf8 v => if v = "" then AttributeValue.none else AttributeValue.value v)
    else specFirstAttribute s rest
  | _ :: rest => specFirstAttribute s rest

/-! Concrete example values used by witnesses and counterexamples. -/

/-- Example selector with no constraints (matches everything in the right
subsystem). -/
def exSelectorAny : Selector := { flat := Option.none, expressions := Option.none }

/-- Example device type (subsystem tty, label kind=radio). -/
def exTypeRadio : DeviceTypeState :=
  { config :=
      { name := "radio", subsystem := "tty", access := .exclusive,
        labels := { values := [("kind", "radio")] }, selector := exSelectorAny },
    devices := [] }

/-- Example device type (subsystem tty, label kind=gps). -/
def exTypeGps : DeviceTypeState :=
  { config :=
      { name := "gps", subsystem := "tty", access := .exclusive,
        labels := { values := [("kind", "gps")] }, selector := exSelectorAny },
    devices := [] }

/-- Example device class whose selector accepts only label kind=radio. -/
def exClassRadio : DeviceClass :=
  { subsystem := "tty", name := "radio-class", target := "yolodev.example.com/radio",
    selector := { flat := some [("kind", "radio")], expressions := Option.none } }

/-- Example device class used for the registration claim: its configured
target differs from the udev/{subsystem}/{name} string. -/
def exClassReg : DeviceClass :=
  { subsystem := "tty", name := "gps-class", target := "yolodev.example.com/gps",
    selector := exSelectorAny }

/-- Example empty application state. -/
def exAppState0 : AppState :=
  { config := { deviceTypes := [], deviceClasses := [] },
    devices := { devices := [] }, deviceTypes := [], deviceClasses := [] }

/-- Example application state holding one running device class server. -/
def exAppState1 : AppState :=
  { exAppState0 with
    deviceClasses :=
      [{ config := exClassRadio,
         snapshot := { devices := [], deviceTypes := [] },
         server := { name := "radio-class.sock", abortResult := .ok () } }] }

/-- Example environment whose next event is nothing in particular. -/
def exEnv : Env :=
  { scanResult := .ok [], newClassesResult := .ok [], nextEvent := .signal (some .sigTerm) }

/-- Example hash function standing in for seahash in witnesses. -/
def exHash : String → Nat := fun _ => 0

/-- Example udev device, well formed for exHash. -/
def exDevice : UdevDevice :=
  { id := deviceIdString exHash "/sys/devices/w", subsystem := "tty",
    syspath := "/sys/devices/w", devnode := "/dev/ttyW",
    attributes := [("idVendor", .value "1234")] }

/-- Example device registry holding exDevice. -/
def exRegistry : DeviceRegistry := { devices := [("/sys/devices/w", exDevice)] }

/-- Example device type matching exDevice, with access 3. -/
def exTypeMulti : DeviceType :=
  { name := "multi", subsystem := "tty", access := .atMost 3,
    labels := { values := [] }, selector := exSelectorAny }

/-- Example Register request produced by starting exClassReg with identity
slug, no existing files and fuel 1. -/
def exRegReq : Proto.RegisterRequest :=
  Proto.startRegisterRequest Proto.kubeletDevicePluginNew
    (deviceClassResourceName exClassReg)
    (Proto.DEVICE_PLUGIN_PATH ++ "udev/tty/gps-class.sock")

/-- Example raw kernel device: a child whose parent rebinds one attribute
name, with one empty and one non UTF-8 value in the chain. -/
def exRawChain : RawDevice :=
  .node
    [(RawStr.utf8 "idVendor", some (RawStr.utf8 "1234")),
     (RawStr.utf8 "empty", some (RawStr.utf8 "")),
     (RawStr.utf8 "broken", some RawStr.nonUtf8)]
    (some (.node
      [(RawStr.utf8 "idVendor", some (RawStr.utf8 "9999")),
       (RawStr.utf8 "parentOnly", some (RawStr.utf8 "p"))]
      Option.none))

/-- Example opaque kernel device reference around exRawChain. -/
def exTokioDevice : TokioUdevDevice :=
  { subsystem := some (RawStr.utf8 "tty"), syspath := RawStr.utf8 "/sys/devices/w",
    devnode := some (RawStr.utf8 "/dev/ttyW"), chain := exRawChain }

/-- Example parsed device: the result of try_from on exTokioDevice. -/
def exParsedDevice : UdevDevice :=
  { id := deviceIdString exHash "/sys/devices/w", subsystem := "tty",
    syspath := "/sys/devices/w", devnode := "/dev/ttyW",
    attributes :=
      [("idVendor", .value "1234"), ("empty", .none), ("broken", .invalid),
       ("parentOnly", .value "p")] }

/-! Helper lemmas. -/

theorem lookup_beq_true {α : Type} (k : InternedString) (v : α)
    (rest : List (InternedString × α)) (q : InternedString) (h : q = k) :
    List.lookup q ((k, v) :: rest) = some v := by
  have hb : (q == k) = true := by simp [h]
  simp [List.lookup, hb]

theorem lookup_beq_false {α : Type} (k : InternedString) (v : α)
    (rest : List (InternedString × α)) (q : InternedString) (h : ¬q = k) :
    List.lookup q ((k, v) :: rest) = List.lookup q rest := by
  have hb : (q == k) = false := by simp [h]
  simp [List.lookup, hb]

theorem lookup_assocInsert {α : Type} (m : List (InternedString × α)) (k : InternedString)
    (v : α) (q : InternedString) :
    (assocInsert m k v).lookup q = if q = k then some v else m.lookup q := by
  induction m with
  | nil =>
    by_cases h : q = k
    · simp [assocInsert, h, lookup_beq_true]
    · simp [assocInsert, h, lookup_beq_false _ _ _ _ h]
  | cons p rest ih =>
    obtain ⟨k0, v0⟩ := p
    by_cases hk : k0 = k
    · subst hk
      by_cases h : q = k0
      · simp [assocInsert, h, lookup_beq_true]
      · simp [assocInsert, h, lookup_beq_false _ _ _ _ h]
    · by_cases h : q = k0
      · subst h
        have hqk : ¬q = k := fun hh => hk (by rw [← hh])
        simp [assocInsert, hk, hqk, lookup_beq_true]
      · simp [assocInsert, hk, lookup_beq_false _ _ _ _ h, ih]

theorem lookup_assocErase {α : Type} (m : List (InternedString × α)) (k : InternedString)
    (q : InternedString) :
    (assocErase m k).lookup q = if q = k then Option.none else m.lookup q := by
  induction m with
  | nil => by_cases h : q = k <;> simp [assocErase, List.lookup, h]
  | cons p rest ih =>
    obtain ⟨k0, v0⟩ := p
    by_cases hk : k0 = k
    · subst hk
      have hfilter : assocErase ((k0, v0) :: rest) k0 = assocErase rest k0 := by
        simp [assocErase, List.filter]
      by_cases h : q = k0
      · rw [hfilter, ih, if_pos h, if_pos h]
      · rw [hfilter, ih, if_neg h, if_neg h, lookup_beq_false _ _ _ _ h]
    · have hfilter : assocErase ((k0, v0) :: rest) k = (k0, v0) :: assocErase rest k := by
        simp [assocErase, List.filter, hk]
      by_cases h : q = k0
      · subst h
        have hqk : ¬q = k := fun hh => hk (by rw [← hh])
        rw [hfilter, lookup_beq_true _ v0 _ _ rfl, lookup_beq_true _ v0 _ _ rfl, if_neg hqk]
      · rw [hfilter, lookup_beq_false _ _ _ _ h, lookup_beq_false _ _ _ _ h, ih]

theorem sameId_refl (a : DeviceHandle) : a.sameId a = true := by
  simp [DeviceHandle.sameId]

theorem handleListEq_refl (l : List DeviceHandle) : handleListEq l l = true := by
  induction l with
  | nil => rfl
  | cons a t ih => simp [handleListEq, sameId_refl, ih]

/-! C9. -/

/-- C9: DeviceRegistry::update inserts or replaces the entry keyed by the
event device syspath for Add and Change, deletes that key for Remove, and
leaves the table untouched for Bind, Unbind and Unknown, stated
observationally through lookups at every key. -/
theorem deviceRegistry_update_spec (r : DeviceRegistry) (d : UdevDevice)
    (k : InternedString) :
    ((r.update (.add d)).devices.lookup k
        = if k = d.syspath then some d else r.devices.lookup k) ∧
    ((r.update (.change d)).devices.lookup k
        = if k = d.syspath then some d else r.devices.lookup k) ∧
    ((r.update (.remove d)).devices.lookup k
        = if k = d.syspath then Option.none else r.devices.lookup k) ∧
    r.update (.bind d) = r ∧
    r.update (.unbind d) = r ∧
    r.update (.unknown d) = r := by
  refine ⟨?_, ?_, ?_, rfl, rfl, rfl⟩ <;>
    simp [DeviceRegistry.update, lookup_assocInsert, lookup_assocErase]

/-! C10. -/

/-- C10: the only constructor of the plugin server instantiates it with both
const flags false, so the advertised DevicePluginOptions are both false,
PreStartContainer succeeds without any action, and GetPreferredAllocation
returns Unimplemented, for every request. -/
theorem devicePlugin_no_prestart_no_preferred :
    Proto.getDevicePluginOptions Proto.kubeletDevicePluginNew
        = { preStartRequired := false, getPreferredAllocationAvailable := false } ∧
    (∀ r : Proto.PreStartContainerRequest, Proto.prestartContainerFF r = .ok ()) ∧
    (∀ r : Proto.PreferredAllocationRequest,
      Proto.getPreferredAllocationFF r
        = .error (.unimplemented "get_preferred_allocation not supported")) := by
  exact ⟨rfl, fun _ => rfl, fun _ => rfl⟩

/-! C5. -/

/-- C5: parsing the serialization of DeviceAccess::AtMost(1) yields Exclusive
and not AtMost(1), because visit_u8 maps the integer 1 to Exclusive; this
contradicts the round-trip property (and the repo serde test asserting the
AtMost(1) round trip). -/
theorem deviceAccess_atMost1_roundtrip_fails :
    DeviceAccess.serialize (.atMost 1) = .u8 1 ∧
    DeviceAccess.deserialize (DeviceAccess.serialize (.atMost 1)) = .ok .exclusive ∧
    DeviceAccess.exclusive ≠ DeviceAccess.atMost 1 := by
  refine ⟨rfl, rfl, ?_⟩
  intro h
  cases h

/-! C1. -/

/-- C1: Distributor::get_device_types at a concrete view and predicate. The
predicate (the radio class selector) accepts the radio type and rejects the
gps type, yet the call returns the rejected gps type and keeps the accepted
radio type in the view, so remaining() still contains the accepted type:
the partition results are swapped relative to the documented take
semantics. -/
theorem distributor_take_swapped :
    (Distributor.getDeviceTypes { types := [exTypeRadio, exTypeGps] }
        (fun ty => (exClassRadio.matchWith ty).isMatch)).2 = [exTypeGps] ∧
    (Distributor.getDeviceTypes { types := [exTypeRadio, exTypeGps] }
        (fun ty => (exClassRadio.matchWith ty).isMatch)).1.remaining = [exTypeRadio] := by
  constructor <;> rfl

/-! C3. -/

/-- C3 counterexample: with the next event being a config read error from the
watcher, one iteration of the run loop exits the process with that error
instead of keeping the previous config and continuing, at a concrete state
and error. -/
theorem config_error_exits_loop :
    appRunStep
        { scanResult := .ok [], newClassesResult := .ok [],
          nextEvent := .config (some (.error .missingExtension)) }
        exAppState0 .none
      = .exit (.error (.onConfigError .missingExtension)) Effects.none := by
  rfl

/-- C3 amended: every config read error delivered by the watcher stream is
fatal: the iteration exits the loop carrying the error (the stored config is
never modified and no reconcile is triggered because the loop terminates). -/
theorem config_error_always_fatal (scan : Except Unit (List (InternedString × UdevDevice)))
    (newc : Except Unit (List DeviceClassState)) (st : AppState) (e : ConfigError) :
    appRunStep
        { scanResult := scan, newClassesResult := newc,
          nextEvent := .config (some (.error e)) }
        st .none
      = .exit (.error (.onConfigError e)) Effects.none := by
  rfl

/-! C4. -/

/-- C4 counterexample: at a concrete state holding one running class server,
the Shutdown arm of the event loop exits with Ok and an empty abort list:
no device class server is aborted before returning. -/
theorem shutdown_aborts_nothing_concrete :
    appRunStep exEnv exAppState1 .shutdown = .exit (.ok ()) Effects.none ∧
    exAppState1.deviceClasses.map (fun c => c.server.name) = ["radio-class.sock"] := by
  exact ⟨rfl, rfl⟩

theorem mem_collect_errs (results : List (Except String Unit)) (msg : String) :
    msg ∈ results.filterMap
        (fun r => match r with | .error e => some e | .ok _ => Option.none) ↔
      Except.error msg ∈ results := by
  rw [List.mem_filterMap]
  constructor
  · rintro ⟨r, hr, hmap⟩
    cases r with
    | ok u => simp at hmap
    | error e =>
      simp only [Option.some.injEq] at hmap
      rw [← hmap]; exact hr
  · intro h
    exact ⟨.error msg, h, rfl⟩

theorem collect_errs_nil_iff (results : List (Except String Unit)) :
    results.filterMap
        (fun r => match r with | .error e => some e | .ok _ => Option.none) = [] ↔
      ∀ r ∈ results, r = .ok () := by
  rw [List.filterMap_eq_nil_iff]
  constructor
  · intro h r hr
    have := h r hr
    cases r with
    | ok u => cases u; rfl
    | error e => simp at this
  · intro h r hr
    rw [h r hr]

theorem collectErrors_ok_iff (results : List (Except String Unit)) :
    collectErrors results = .ok () ↔ ∀ r ∈ results, r = .ok () := by
  unfold collectErrors
  by_cases h : results.filterMap
      (fun r => match r with | .error e => some e | .ok _ => Option.none) = []
  · simp only [h, if_pos rfl]
    rw [← collect_errs_nil_iff results]
    exact ⟨fun _ => h, fun _ => rfl⟩
  · simp only [if_neg h]
    constructor
    · intro hcontr; cases hcontr
    · intro hall
      exact absurd ((collect_errs_nil_iff results).mpr hall) h

theorem collectErrors_error_iff (results : List (Except String Unit)) (msg : String) :
    (∃ l, collectErrors results = .error l ∧ msg ∈ l) ↔ Except.error msg ∈ results := by
  unfold collectErrors
  by_cases h : results.filterMap
      (fun r => match r with | .error e => some e | .ok _ => Option.none) = []
  · simp only [h, if_pos rfl]
    constructor
    · rintro ⟨l, hl, _⟩; cases hl
    · intro hmem
      have : msg ∈ ([] : List String) := h ▸ (mem_collect_errs results msg).mpr hmem
      cases this
  · simp only [if_neg h]
    constructor
    · rintro ⟨l, hl, hmem⟩
      injection hl with hl
      rw [← hl] at hmem
      exact (mem_collect_errs results msg).mp hmem
    · intro hmem
      exact ⟨_, rfl, (mem_collect_errs results msg).mpr hmem⟩

/-- C4 amended: the Shutdown action breaks out of the loop and run returns Ok
without aborting any class server; the parallel abort that aggregates every
error (not only the first) lives in DeviceClassRegistry::stop, which aborts
exactly the servers of the registry it is called on and fails exactly when
some abort failed, reporting precisely the messages of all failed aborts. -/
theorem shutdown_breaks_stop_aggregates :
    (∀ (env : Env) (st : AppState),
      appRunStep env st .shutdown = .exit (.ok ()) Effects.none) ∧
    (∀ servers : List ServerHandle,
      (deviceClassRegistryStop servers).1 = servers.map (fun s => s.name)) ∧
    (∀ servers : List ServerHandle,
      ((deviceClassRegistryStop servers).2 = .ok () ↔
        ∀ s ∈ servers, s.abortResult = .ok ())) ∧
    (∀ (servers : List ServerHandle) (msg : String),
      ((∃ l, (deviceClassRegistryStop servers).2 = .error l ∧ msg ∈ l) ↔
        ∃ s ∈ servers, s.abortResult = .error msg)) := by
  refine ⟨fun _ _ => rfl, fun _ => rfl, fun servers => ?_, fun servers msg => ?_⟩
  · rw [show (deviceClassRegistryStop servers).2
        = collectErrors (servers.map (fun s => s.abortResult)) from rfl]
    rw [collectErrors_ok_iff]
    constructor
    · intro h s hs
      exact h _ (List.mem_map_of_mem (fun s => s.abortResult) hs)
    · rintro h r hr
      obtain ⟨s, hs, rfl⟩ := List.mem_map.mp hr
      exact h s hs
  · rw [show (deviceClassRegistryStop servers).2
        = collectErrors (servers.map (fun s => s.abortResult)) from rfl]
    rw [collectErrors_error_iff]
    constructor
    · intro h
      obtain ⟨s, hs, heq⟩ := List.mem_map.mp h
      exact ⟨s, hs, heq⟩
    · rintro ⟨s, hs, heq⟩
      exact List.mem_map.mpr ⟨s, hs, heq⟩

/-! C2. -/

/-- C2 counterexample: starting the concrete class exClassReg sends a
Register request whose resource_name is the udev/{subsystem}/{name} string,
which differs from the configured target field of the class. -/
theorem register_resource_name_not_target :
    (deviceClassStart (fun s => s) (fun _ => false) 1 exClassReg).map
        (fun req => req.resourceName) = some "udev/tty/gps-class" ∧
    exClassReg.target ≠ "udev/tty/gps-class" := by
  exact ⟨rfl, by decide⟩

/-- C2 amended: whenever starting a device class sends a Register request,
the request has version v1beta1, endpoint equal to the allocated socket
path, options with both capability flags false, and resource_name equal to
udev/{subsystem}/{name} of the class (the configured target field is not
used). -/
theorem register_request_shape (slugF : String → String) (existsF : String → Bool)
    (fuel : Nat) (config : DeviceClass) (req : Proto.RegisterRequest)
    (h : deviceClassStart slugF existsF fuel config = some req) :
    req.version = "v1beta1" ∧
    req.resourceName = "udev/" ++ config.subsystem ++ "/" ++ config.name ∧
    req.options
      = some { preStartRequired := false, getPreferredAllocationAvailable := false } ∧
    ∃ path,
      Proto.allocSocketPath existsF (slugF (deviceClassResourceName config)) fuel 0
          = some path ∧
      req.endpoint = path := by
  unfold deviceClassStart Proto.serverStart at h
  cases halloc : Proto.allocSocketPath existsF (slugF (deviceClassResourceName config)) fuel 0 with
  | none => rw [halloc] at h; cases h
  | some path =>
    rw [halloc] at h
    simp only [Option.map_some'] at h
    injection h with h
    rw [← h]
    exact ⟨rfl, rfl, rfl, path, rfl, rfl⟩

/-- C2 witness: the amended registration statement holds at the concrete
class exClassReg with identity slug, an empty plugin directory and fuel 1. -/
theorem register_request_shape_witness :
    exRegReq.version = "v1beta1" ∧
    exRegReq.resourceName = "udev/" ++ exClassReg.subsystem ++ "/" ++ exClassReg.name ∧
    exRegReq.options
      = some { preStartRequired := false, getPreferredAllocationAvailable := false } ∧
    ∃ path,
      Proto.allocSocketPath (fun _ => false)
          ((fun s => s) (deviceClassResourceName exClassReg)) 1 0
        = some path ∧
      exRegReq.endpoint = path :=
  register_request_shape (fun s => s) (fun _ => false) 1 exClassReg exRegReq rfl

/-! C8. -/

/-- C8: DevicePlugin::reconcile fires the notifier exactly when the newly
computed handle list differs from the stored one under id equality, in which
case the snapshot is replaced with the new one, and otherwise leaves the
snapshot untouched; running the same reconcile again on the produced
snapshot with the same distributor input changes nothing and does not
notify. -/
theorem pluginReconcile_change_detection (config : DeviceClass) (old : DevicesState)
    (dist : Distributor) :
    (pluginReconcile config old dist).2.2
        = !handleListEq old.devices
            ((dist.getDeviceTypes (fun ty => (config.matchWith ty).isMatch)).2.flatMap
              (fun ty => ty.devices)) ∧
    (pluginReconcile config old dist).1
        = (if handleListEq old.devices
              ((dist.getDeviceTypes (fun ty => (config.matchWith ty).isMatch)).2.flatMap
                (fun ty => ty.devices))
           then old
           else
             { devices :=
                 (dist.getDeviceTypes (fun ty => (config.matchWith ty).isMatch)).2.flatMap
                   (fun ty => ty.devices),
               deviceTypes :=
                 (dist.getDeviceTypes (fun ty => (config.matchWith ty).isMatch)).2 }) ∧
    (pluginReconcile config (pluginReconcile config old dist).1 dist).1
        = (pluginReconcile config old dist).1 ∧
    (pluginReconcile config (pluginReconcile config old dist).1 dist).2.2 = false := by
  by_cases h : handleListEq old.devices
      ((dist.getDeviceTypes (fun ty => (config.matchWith ty).isMatch)).2.flatMap
        (fun ty => ty.devices))
  · simp [pluginReconcile, h]
  · simp [pluginReconcile, h, handleListEq_refl]

/-! C6. -/

/-- C6: in every reachable slot list of a device type, every handle id is the
base64 of the 8 little-endian bytes of the 64-bit syspath hash of some
device, then a colon, then a slot index strictly below the access count of
the owning type. -/
theorem deviceHandle_id_shape (hash : String → Nat) (config : DeviceType)
    (slots : List DeviceHandle) (h : DeviceTypeReachable hash config slots)
    (handle : DeviceHandle) (hmem : handle ∈ slots) :
    ∃ (syspath : String) (n : Nat), n < config.access.toNat ∧
      handle.id = base64Encode (u64ToLEBytes (hash syspath)) ++ ":" ++ toString n := by
  cases h with
  | init => cases hmem
  | reconcile registry hw =>
    unfold reconcileDevices at hmem
    rw [List.mem_flatMap] at hmem
    obtain ⟨device, hdev, hmem⟩ := hmem
    rw [List.mem_map] at hmem
    obtain ⟨n, hn, rfl⟩ := hmem
    rw [List.mem_range] at hn
    refine ⟨device.syspath, n, hn, ?_⟩
    have hdev2 : device ∈ registry.devices.map Prod.snd := List.mem_of_mem_filter hdev
    rw [List.mem_map] at hdev2
    obtain ⟨p, hp, rfl⟩ := hdev2
    have hwf := hw p hp
    unfold WellFormedDevice deviceIdString at hwf
    simp [DeviceHandle.new, hwf]

/-- C6 witness: the id shape at a concrete reconcile of the access-3 type
exTypeMulti over exRegistry, for the slot-2 handle it produces. -/
theorem deviceHandle_id_shape_witness :
    ∃ (syspath : String) (n : Nat), n < exTypeMulti.access.toNat ∧
      (DeviceHandle.new exDevice 2).id
        = base64Encode (u64ToLEBytes (exHash syspath)) ++ ":" ++ toString n :=
  deviceHandle_id_shape exHash exTypeMulti (reconcileDevices exTypeMulti exRegistry)
    (.reconcile exRegistry (by decide)) (DeviceHandle.new exDevice 2) (by decide)

/-! C7. -/

theorem lookup_append_single {α : Type} (acc : List (InternedString × α))
    (n : InternedString) (cv : α) (q : InternedString) :
    (acc ++ [(n, cv)]).lookup q
      = (match acc.lookup q with
        | some v => some v
        | Option.none => if q = n then some cv else Option.none) := by
  induction acc with
  | nil =>
    by_cases h : q = n
    · rw [List.nil_append, lookup_beq_true _ _ _ _ h]
      simp [List.lookup, h]
    · rw [List.nil_append, lookup_beq_false _ _ _ _ h]
      simp [List.lookup, h]
  | cons p rest ih =>
    obtain ⟨k0, v0⟩ := p
    by_cases h : q = k0
    · rw [List.cons_append, lookup_beq_true _ _ _ _ h, lookup_beq_true _ _ _ _ h]
    · rw [List.cons_append, lookup_beq_false _ _ _ _ h, lookup_beq_false _ _ _ _ h, ih]

theorem lookup_orInsert_bound (acc : List (InternedString × AttributeValue))
    (n : InternedString) (cv : AttributeValue) (v : AttributeValue)
    (hacc : acc.lookup n = some v) :
    (orInsert acc n cv).lookup n = some v := by
  unfold orInsert
  rw [hacc]
  simp [hacc]

theorem lookup_orInsert_fresh (acc : List (InternedString × AttributeValue))
    (n : InternedString) (cv : AttributeValue) (hacc : acc.lookup n = Option.none) :
    (orInsert acc n cv).lookup n = some cv := by
  unfold orInsert
  rw [hacc]
  simp only [Option.isSome_none, Bool.false_eq_true, if_false]
  rw [lookup_append_single, hacc]
  simp

theorem lookup_orInsert_ne (acc : List (InternedString × AttributeValue))
    (n : InternedString) (cv : AttributeValue) (q : InternedString) (h : ¬q = n) :
    (orInsert acc n cv).lookup q = acc.lookup q := by
  unfold orInsert
  by_cases hs : (acc.lookup n).isSome
  · rw [if_pos hs]
  · rw [if_neg hs, lookup_append_single]
    cases hq : acc.lookup q <;> simp [h]

theorem collectAttributes_lookup (s : String) (xs : List (RawStr × Option RawStr)) :
    ∀ (acc m : List (InternedString × AttributeValue)),
      collectAttributes acc xs = .ok m →
      m.lookup s
        = (match acc.lookup s with
          | some v => some v
          | Option.none => specFirstAttribute s xs) := by
  induction xs with
  | nil =>
    intro acc m h
    injection h with h
    subst h
    cases hacc : acc.lookup s <;> simp [specFirstAttribute, hacc]
  | cons head rest ih =>
    intro acc m h
    obtain ⟨name, entry⟩ := head
    cases name with
    | nonUtf8 => exact absurd h (by simp [collectAttributes])
    | utf8 n =>
      cases entry with
      | none =>
        have h2 : collectAttributes acc rest = .ok m := h
        rw [ih acc m h2]
        cases hacc : acc.lookup s <;> simp [specFirstAttribute, hacc]
      | some raw =>
        have h2 : collectAttributes (orInsert acc n (classifyAttrValue raw)) rest = .ok m := h
        rw [ih _ m h2]
        by_cases hns : s = n
        · subst hns
          cases hacc : acc.lookup s with
          | some v =>
            rw [lookup_orInsert_bound acc s _ v hacc]
          | none =>
            rw [lookup_orInsert_fresh acc s _ hacc]
            cases raw <;> simp [specFirstAttribute, classifyAttrValue, hacc]
        · rw [lookup_orInsert_ne acc n _ s hns]
          have hsn : ¬n = s := fun hh => hns (by rw [hh])
          cases hacc : acc.lookup s <;> simp [specFirstAttribute, hacc, hsn]

/-- C7: when try_from succeeds, the attribute map of the produced device
binds every name to the classification of the first occurrence of that name
carrying a resolved value, walking from the device through its ancestors to
the root; first occurrences win and later ones are ignored, with empty
values read as None, non UTF-8 values as Invalid and valid non-empty values
as Value. -/
theorem udev_attributes_first_occurrence (hash : String → Nat) (value : TokioUdevDevice)
    (d : UdevDevice) (h : udevDeviceTryFrom hash value = .ok d) (s : String) :
    d.attribute s = specFirstAttribute s (value.chain.hierarchy.flatMap RawDevice.attrs) := by
  obtain ⟨subsys, syspath, devnode, chain⟩ := value
  unfold udevDeviceTryFrom at h
  cases subsys with
  | none => cases h
  | some rawSub =>
    cases rawSub with
    | nonUtf8 => cases h
    | utf8 ssub =>
      cases syspath with
      | nonUtf8 => cases h
      | utf8 sp =>
        cases devnode with
        | none => cases h
        | some rawDev =>
          cases rawDev with
          | nonUtf8 => cases h
          | utf8 dn =>
            simp only [bind, Except.bind] at h
            cases hc : collectAttributes [] (chain.hierarchy.flatMap RawDevice.attrs) with
            | error e => rw [hc] at h; cases h
            | ok m =>
              rw [hc] at h
              injection h with h
              rw [← h]
              unfold UdevDevice.attribute
              simp only []
              rw [collectAttributes_lookup s _ [] m hc]
              simp [List.lookup]

/-- C7 witness: the first-occurrence attribute law at the concrete chain
exTokioDevice (child rebinding idVendor over its parent, with an empty and a
non UTF-8 value), for the name idVendor. -/
theorem udev_attributes_first_occurrence_witness :
    exParsedDevice.attribute "idVendor"
      = specFirstAttribute "idVendor" (exTokioDevice.chain.hierarchy.flatMap RawDevice.attrs) :=
  udev_attributes_first_occurrence exHash exTokioDevice exParsedDevice (by decide) "idVendor"

end UdevMgr
